import Mathlib

/-!
Verification of the session-scoring and sampling core of the
student-productivity tracking application.

The definitions below are a shallow embedding of the Python source:

* `calculate_productivity_score`, `end_session`, `log_session`,
  `log_emotion`, `log_focus` from `db.py` (the persistent store is made
  explicit as a `DB` value threaded through the operations; `datetime.now`
  becomes an explicit timestamp argument);
* the focus-detection block and the emotion-sampling trigger of the main
  loop in `pages/2_Student_Session.py` (the OpenCV cascade results become
  explicit inputs: a list of detected face regions each carrying the number
  of eye regions found inside it, and an abstract per-cycle classification
  outcome);
* the focus-count normalization of `pages/3_Dashboard.py`.

Python floats are modelled by `ℚ`; `round(x, 2)` is modelled by rounding
`100 * x` to the nearest integer.
-/

/-- One row of `emotion_logs` as seen by one session: timestamp, emotion
label and confidence (`db.py`, table `emotion_logs`). -/
structure EmotionEvent where
  timestamp : String
  label : String
  confidence : ℚ
deriving DecidableEq

/-- One row of `focus_logs` as seen by one session: timestamp and status
string (`db.py`, table `focus_logs`).  The status is a free string in the
store; the detector writes "Focused" or "Distracted". -/
structure FocusEvent where
  timestamp : String
  status : String
deriving DecidableEq

/-- `positive_emotions` set from `calculate_productivity_score` (db.py). -/
def positive_emotions : List String := ["happy", "surprise"]

/-- `neutral_emotions` set from `calculate_productivity_score` (db.py). -/
def neutral_emotions : List String := ["neutral"]

/-- `negative_emotions` set from `calculate_productivity_score` (db.py). -/
def negative_emotions : List String := ["angry", "sad", "fear", "disgust"]

/-- The per-label weight applied by the if/elif chain inside
`calculate_productivity_score` (db.py lines 144-153). -/
def emotionWeight (e : String) : ℚ :=
  if e ∈ positive_emotions then 1
  else if e ∈ neutral_emotions then 7/10
  else if e ∈ negative_emotions then 2/5
  else 1/2

/-- `total_emotions = sum(v["count"] for v in emotions.values()) or 1`
(db.py line 139): the number of emotion events, replaced by 1 when zero. -/
def total_emotions_of (emotions : List EmotionEvent) : ℚ :=
  if emotions.length = 0 then 1 else emotions.length

/-- The emotion component of the score (db.py lines 142-154).
`get_session_summary` groups the events by label with their counts; the
loop adds `count * weight` per distinct label, then divides by
`total_emotions` and scales to 0-100. -/
def emotion_score_of (emotions : List EmotionEvent) : ℚ :=
  let labels := emotions.map (fun e => e.label)
  let raw := Finset.sum labels.toFinset
    (fun e => (labels.count e : ℚ) * emotionWeight e)
  raw / total_emotions_of emotions * 100

/-- `focus_total = sum(focus_data.values()) or 1` (db.py line 140): the
number of focus events of the session, replaced by 1 when zero. -/
def focus_total_of (focus : List FocusEvent) : ℚ :=
  if focus.length = 0 then 1 else focus.length

/-- `focused = focus_data.get("Focused", 0)` (db.py line 157): the number
of focus events whose status is exactly "Focused". -/
def focused_count (focus : List FocusEvent) : ℕ :=
  (focus.filter (fun f => f.status == "Focused")).length

/-- The focus component of the score (db.py lines 156-158). -/
def focus_score_of (focus : List FocusEvent) : ℚ :=
  if 0 < focus_total_of focus then
    (focused_count focus : ℚ) / focus_total_of focus * 100
  else 0

/-- Python `round(x, 2)`: round `100 * x` to the nearest integer and divide
back by 100. -/
def roundTo2 (x : ℚ) : ℚ := (round (x * 100) : ℚ) / 100

/-- `calculate_productivity_score` (db.py lines 130-162) as a pure function
of the two event lists of the session: 70% focus component plus 30%
emotion component, rounded to two decimals. -/
def calculate_productivity_score
    (emotions : List EmotionEvent) (focus : List FocusEvent) : ℚ :=
  roundTo2 (7/10 * focus_score_of focus + 3/10 * emotion_score_of emotions)

/-- The per-label weight as the specification words it: 1.0 for
happy/surprise, 0.7 for neutral, 0.4 for angry/sad/fear/disgust, 0.5 for
any other label.  Reference definition for the refinement claim about
`calculate_productivity_score`. -/
def spec_weight (l : String) : ℚ :=
  if l = "happy" ∨ l = "surprise" then 1
  else if l = "neutral" then 7/10
  else if l = "angry" ∨ l = "sad" ∨ l = "fear" ∨ l = "disgust" then 2/5
  else 1/2

/-- The emotion component as the specification words it:
`100 * Σ(count(label) * weight(label)) / totalEmotion`, with `totalEmotion`
treated as 1 when zero.  The per-label grouped sum is written as the
equivalent per-event weight sum. -/
def spec_emotion_score (emotions : List EmotionEvent) : ℚ :=
  let totalEmotion : ℚ := if emotions = [] then 1 else emotions.length
  100 * (emotions.map (fun e => spec_weight e.label)).sum / totalEmotion

/-- The focus component as the specification words it: group focus events
by status, `focus_total = focused + distracted` (1 if zero),
`focus_score = 100 * focused / focus_total`. -/
def spec_focus_score (focus : List FocusEvent) : ℚ :=
  let focused : ℚ := ((focus.map (fun f => f.status)).count "Focused" : ℚ)
  let distracted : ℚ := ((focus.map (fun f => f.status)).count "Distracted" : ℚ)
  let focus_total : ℚ := if focused + distracted = 0 then 1 else focused + distracted
  100 * focused / focus_total

/-- The whole score as the specification words it:
`round(0.7 * focus_score + 0.3 * emotion_score, 2)`. -/
def spec_productivity_score
    (emotions : List EmotionEvent) (focus : List FocusEvent) : ℚ :=
  roundTo2 (7/10 * spec_focus_score focus + 3/10 * spec_emotion_score emotions)

/-- The worked scenario of the specification: 5 happy plus 5 neutral
emotion events. -/
def scenarioEmotions : List EmotionEvent :=
  List.replicate 5 ⟨"t", "happy", 1⟩ ++ List.replicate 5 ⟨"t", "neutral", 1⟩

/-- The worked scenario of the specification: 8 Focused plus 2 Distracted
focus events. -/
def scenarioFocus : List FocusEvent :=
  List.replicate 8 ⟨"t", "Focused"⟩ ++ List.replicate 2 ⟨"t", "Distracted"⟩

/-- One row of the `sessions` table (db.py): id, student, start time,
nullable end time, productivity score (REAL DEFAULT 0). -/
structure SessionRow where
  id : ℕ
  student_id : ℕ
  start_time : String
  end_time : Option String
  productivity_score : ℚ
deriving DecidableEq

/-- The persistent store of db.py made explicit: the three tables used by
the session pipeline plus the AUTOINCREMENT counter for session ids.
Log rows pair the owning session id with the event payload. -/
structure DB where
  sessions : List SessionRow
  emotion_logs : List (ℕ × EmotionEvent)
  focus_logs : List (ℕ × FocusEvent)
  next_session_id : ℕ
deriving DecidableEq

/-- The emotion events of one session, in insertion order (the rows
`get_session_summary` aggregates for that session). -/
def session_emotions (db : DB) (sid : ℕ) : List EmotionEvent :=
  (db.emotion_logs.filter (fun r => r.1 == sid)).map (fun r => r.2)

/-- The focus events of one session, in insertion order (the rows
`get_focus_summary` aggregates for that session). -/
def session_focus (db : DB) (sid : ℕ) : List FocusEvent :=
  (db.focus_logs.filter (fun r => r.1 == sid)).map (fun r => r.2)

/-- `log_session` (db.py lines 107-111): unconditionally INSERT a new
session row with the given start time and no end time, returning the new
row id.  `datetime.now` is the explicit `now` argument. -/
def log_session (db : DB) (student_id : ℕ) (now : String) : ℕ × DB :=
  (db.next_session_id,
   { db with
      sessions := db.sessions ++ [⟨db.next_session_id, student_id, now, none, 0⟩],
      next_session_id := db.next_session_id + 1 })

/-- `log_emotion` (db.py lines 113-119): append one emotion row. -/
def log_emotion (db : DB) (sid : ℕ) (ts : String) (emotion : String)
    (confidence : ℚ) : DB :=
  { db with emotion_logs := db.emotion_logs ++ [(sid, ⟨ts, emotion, confidence⟩)] }

/-- `log_focus` (db.py lines 121-127): append one focus row. -/
def log_focus (db : DB) (sid : ℕ) (ts : String) (status : String) : DB :=
  { db with focus_logs := db.focus_logs ++ [(sid, ⟨ts, status⟩)] }

/-- `calculate_productivity_score(session_id)` applied to the store: the
pure score of the session's current event lists. -/
def db_productivity_score (db : DB) (sid : ℕ) : ℚ :=
  calculate_productivity_score (session_emotions db sid) (session_focus db sid)

/-- `end_session` (db.py lines 164-168): recompute the score from the
session's current events and UPDATE end_time and productivity_score on the
matching row.  There is no state check and no error path. -/
def end_session (db : DB) (sid : ℕ) (now : String) : DB :=
  let score := db_productivity_score db sid
  { db with
      sessions := db.sessions.map (fun r =>
        if r.id = sid then
          { r with end_time := some now, productivity_score := score }
        else r) }

/-- Row lookup by session id (SELECT ... WHERE id=?). -/
def find_session (db : DB) (sid : ℕ) : Option SessionRow :=
  db.sessions.find? (fun r => r.id == sid)

/-- Number of sessions of one student that are still open
(end_time IS NULL), i.e. `Running` in the spec's vocabulary. -/
def running_count (db : DB) (student : ℕ) : ℕ :=
  (db.sessions.filter (fun r => r.student_id == student && r.end_time.isNone)).length

/-- The per-client Streamlit session_state bits that guard the buttons of
`pages/2_Student_Session.py`. -/
structure ClientState where
  running : Bool
  session_id : Option ℕ
deriving DecidableEq

/-- The Start Session button of `pages/2_Student_Session.py` (lines
132-144): the button is rendered with `disabled=running`, so a click does
nothing while this client's `running` flag is set; otherwise it sets
`running`, calls `log_session` and stores the new id. -/
def start_button_click (cs : ClientState) (db : DB) (student_id : ℕ)
    (now : String) : ClientState × DB :=
  if cs.running then (cs, db)
  else
    let r := log_session db student_id now
    (⟨true, some r.1⟩, r.2)

/-- One face rectangle returned by `face_cascade.detectMultiScale`,
carrying the number of eye rectangles `eye_cascade.detectMultiScale`
finds inside its region of interest (the external detectors are opaque;
their per-frame output is the input of the focus block). -/
structure FaceRegion where
  x : ℕ
  y : ℕ
  w : ℕ
  h : ℕ
  eyes : ℕ
deriving DecidableEq

/-- The focus-detection block of the main loop
(`pages/2_Student_Session.py` lines 265-330): `focus_status` starts as
"Distracted" with `face_detected = False`; the loop over ALL detected
faces sets `face_detected` and rewrites `focus_status` from the current
face's eye count; afterwards a zero-face frame is forced to
"Distracted". -/
def focus_block (faces : List FaceRegion) : String :=
  let final := faces.foldl
    (fun _st f => (true, if 2 ≤ f.eyes then "Focused" else "Distracted"))
    (false, "Distracted")
  if final.1 then final.2 else "Distracted"

/-- Pixel area of a face rectangle, the size measure for "largest face". -/
def area (f : FaceRegion) : ℕ := f.w * f.h

/-- First face of maximal area in detector order. -/
def largest_face (faces : List FaceRegion) : Option FaceRegion :=
  faces.foldl
    (fun acc f =>
      match acc with
      | none => some f
      | some g => if area g < area f then some f else some g)
    none

/-- The focus rule as the specification words it: Focused iff at least two
eye regions are detected within the largest detected face region;
Distracted otherwise, including zero faces.  Reference definition for the
refinement claim about the focus detector. -/
def spec_focus_status (faces : List FaceRegion) : String :=
  match largest_face faces with
  | none => "Distracted"
  | some f => if 2 ≤ f.eyes then "Focused" else "Distracted"

/-- `emotion_check_interval = 60` (pages/2_Student_Session.py line 231). -/
def emotion_check_interval : ℕ := 60

/-- `focus_check_interval = 15` (pages/2_Student_Session.py line 232). -/
def focus_check_interval : ℕ := 15

/-- The per-client sampler variables touched by the emotion branch of the
main loop: the local `last_emotion_time` plus the `session_state` entries
`last_emotion`, `emotion_score` (its displayed confidence, `none` for the
initial "N/A"), `last_error` and `emotion_logged_count`. -/
structure SamplerState where
  last_emotion_time : ℚ
  last_emotion : String
  emotion_score_disp : Option ℚ
  last_error : Option String
  emotion_logged_count : ℕ
deriving DecidableEq

/-- Outcome of one `detect_emotion` call: either a dominant label with its
confidence, or an error message (backend missing, empty frame, no face
detected, backend exception). -/
inductive DetectOutcome where
  | success : String → ℚ → DetectOutcome
  | failure : String → DetectOutcome
deriving DecidableEq

/-- Whether a `detect_emotion` outcome carries a classification. -/
def DetectOutcome.isSuccess : DetectOutcome → Bool
  | .success _ _ => true
  | .failure _ => false

/-- The emotion-branch trigger of the main loop (line 248):
`frame_count % emotion_check_interval == 0 or
(current_time - last_emotion_time) > 2`. -/
def emotion_trigger (frame_count : ℕ) (current_time last_time : ℚ) : Prop :=
  frame_count % emotion_check_interval = 0 ∨ current_time - last_time > 2

instance (fc : ℕ) (t lt : ℚ) : Decidable (emotion_trigger fc t lt) := by
  unfold emotion_trigger; infer_instance

/-- The emotion branch of one main-loop iteration
(pages/2_Student_Session.py lines 246-263).  When the trigger fires and a
backend is present, `detect_emotion` runs: on failure only `last_error` is
set; on success the event is logged, the display values and
`last_emotion_time` are updated.  Returns the new sampler state, the new
store, and whether the classifier was invoked.  The function is total:
no branch aborts the loop. -/
def emotion_tick (db : DB) (sid : ℕ) (backend_present : Bool)
    (frame_count : ℕ) (current_time : ℚ) (ts : String)
    (outcome : DetectOutcome) (s : SamplerState) :
    SamplerState × DB × Bool :=
  if emotion_trigger frame_count current_time s.last_emotion_time then
    if backend_present then
      match outcome with
      | .failure msg => ({ s with last_error := some msg }, db, true)
      | .success label conf =>
          ({ s with
              emotion_logged_count := s.emotion_logged_count + 1,
              last_emotion := label.capitalize,
              emotion_score_disp := some conf,
              last_error := none,
              last_emotion_time := current_time },
           log_emotion db sid ts label conf, true)
    else (s, db, false)
  else (s, db, false)

/-- The dashboard's focus counting (pages/3_Dashboard.py lines 282-290):
`focused = counts.get("Focused", 0)`,
`unfocused = counts.get("Unfocused", 0) + counts.get("Distracted", 0)`. -/
def dashboard_focus_counts (fs : List FocusEvent) : ℕ × ℕ :=
  ((fs.filter (fun f => f.status == "Focused")).length,
   (fs.filter (fun f => f.status == "Unfocused")).length
     + (fs.filter (fun f => f.status == "Distracted")).length)

/-- The dashboard's focus percentage (pages/3_Dashboard.py line 290):
`focused / total * 100` over the merged counts, 0 when the total is 0. -/
def dashboard_focus_pct (fs : List FocusEvent) : ℚ :=
  let c := dashboard_focus_counts fs
  if 0 < c.1 + c.2 then (c.1 : ℚ) / ((c.1 + c.2 : ℕ) : ℚ) * 100 else 0

/-! ## Lemmas about the scoring components -/

lemma sum_count_mul_toFinset (l : List String) (w : String → ℚ) :
    Finset.sum l.toFinset (fun a => (l.count a : ℚ) * w a) = (l.map w).sum := by
  rw [Finset.sum_list_map_count]
  exact Finset.sum_congr rfl (fun a _ => by rw [nsmul_eq_mul])

lemma emotionWeight_nonneg (e : String) : 0 ≤ emotionWeight e := by
  rw [emotionWeight]
  split_ifs <;> norm_num

lemma emotionWeight_le_one (e : String) : emotionWeight e ≤ 1 := by
  rw [emotionWeight]
  split_ifs <;> norm_num

lemma emotionWeight_eq_spec (e : String) : emotionWeight e = spec_weight e := by
  rw [emotionWeight, spec_weight]
  simp only [positive_emotions, neutral_emotions, negative_emotions,
    List.mem_cons, List.mem_singleton, List.not_mem_nil, or_false]

/-- The grouped per-label sum of the code equals the per-event weight sum. -/
lemma emotion_score_eq_sum (es : List EmotionEvent) :
    emotion_score_of es
      = (es.map (fun e => emotionWeight e.label)).sum / total_emotions_of es * 100 := by
  rw [emotion_score_of]
  simp only [sum_count_mul_toFinset, List.map_map, Function.comp_def]

lemma total_emotions_pos (es : List EmotionEvent) : 0 < total_emotions_of es := by
  rw [total_emotions_of]
  split_ifs with h
  · norm_num
  · exact_mod_cast Nat.pos_of_ne_zero h

lemma emotion_sum_nonneg (es : List EmotionEvent) :
    0 ≤ (es.map (fun e => emotionWeight e.label)).sum :=
  List.sum_nonneg (by
    intro x hx
    obtain ⟨e, _, rfl⟩ := List.mem_map.mp hx
    exact emotionWeight_nonneg _)

lemma emotion_sum_le_total (es : List EmotionEvent) :
    (es.map (fun e => emotionWeight e.label)).sum ≤ total_emotions_of es := by
  have hle : (es.map (fun e => emotionWeight e.label)).sum ≤ es.length := by
    calc (es.map (fun e => emotionWeight e.label)).sum
        ≤ (es.map (fun e => emotionWeight e.label)).length • (1:ℚ) :=
          List.sum_le_card_nsmul _ 1 (by
            intro x hx
            obtain ⟨e, _, rfl⟩ := List.mem_map.mp hx
            exact emotionWeight_le_one _)
      _ = es.length := by simp
  rw [total_emotions_of]
  split_ifs with h
  · simp [List.length_eq_zero.mp h]
  · exact hle

lemma emotion_score_nonneg (es : List EmotionEvent) : 0 ≤ emotion_score_of es := by
  rw [emotion_score_eq_sum]
  have := emotion_sum_nonneg es
  have := total_emotions_pos es
  positivity

lemma emotion_score_le_100 (es : List EmotionEvent) : emotion_score_of es ≤ 100 := by
  rw [emotion_score_eq_sum]
  have h1 := emotion_sum_le_total es
  have h2 := total_emotions_pos es
  have : (es.map (fun e => emotionWeight e.label)).sum / total_emotions_of es ≤ 1 :=
    (div_le_one h2).mpr h1
  nlinarith

lemma focus_total_pos (fs : List FocusEvent) : 0 < focus_total_of fs := by
  rw [focus_total_of]
  split_ifs with h
  · norm_num
  · exact_mod_cast Nat.pos_of_ne_zero h

lemma focused_count_le_length (fs : List FocusEvent) : focused_count fs ≤ fs.length :=
  List.length_filter_le _ _

lemma focused_count_le_total (fs : List FocusEvent) :
    (focused_count fs : ℚ) ≤ focus_total_of fs := by
  rw [focus_total_of]
  split_ifs with h
  · have : fs = [] := List.length_eq_zero.mp h
    simp [this, focused_count]
  · exact_mod_cast focused_count_le_length fs

lemma focus_score_nonneg (fs : List FocusEvent) : 0 ≤ focus_score_of fs := by
  rw [focus_score_of]
  split_ifs with h
  · positivity
  · exact le_refl 0

lemma focus_score_le_100 (fs : List FocusEvent) : focus_score_of fs ≤ 100 := by
  rw [focus_score_of]
  split_ifs with h
  · have h1 := focused_count_le_total fs
    have : (focused_count fs : ℚ) / focus_total_of fs ≤ 1 := (div_le_one h).mpr h1
    nlinarith
  · norm_num

lemma focus_total_eq_length (fs : List FocusEvent) (h : fs ≠ []) :
    focus_total_of fs = (fs.length : ℚ) := by
  rw [focus_total_of, if_neg (by simpa using List.length_pos.mpr h |>.ne')]

lemma focus_score_eq_100_iff (fs : List FocusEvent) (h : fs ≠ []) :
    focus_score_of fs = 100 ↔ ∀ f ∈ fs, f.status = "Focused" := by
  have hpos : (0 : ℚ) < fs.length := by
    exact_mod_cast List.length_pos.mpr h
  rw [focus_score_of, if_pos (focus_total_pos fs), focus_total_eq_length fs h]
  rw [div_mul_eq_mul_div, div_eq_iff (ne_of_gt hpos)]
  constructor
  · intro heq
    have hc : (focused_count fs : ℚ) = fs.length := by nlinarith
    have hc2 : focused_count fs = fs.length := by exact_mod_cast hc
    intro f hf
    have := (List.filter_length_eq_length).mp hc2 f hf
    simpa using this
  · intro hall
    have hc2 : focused_count fs = fs.length :=
      List.filter_length_eq_length.mpr (fun f hf => by simpa using hall f hf)
    rw [hc2]
    ring

lemma roundTo2_nonneg (x : ℚ) (h : 0 ≤ x) : 0 ≤ roundTo2 x := by
  rw [roundTo2]
  have : (0 : ℤ) ≤ round (x * 100) := by
    rw [round_eq]
    exact Int.le_floor.mpr (by push_cast; linarith)
  positivity

lemma roundTo2_le_100 (x : ℚ) (h : x ≤ 100) : roundTo2 x ≤ 100 := by
  rw [roundTo2]
  have hb : round (x * 100) ≤ 10000 := by
    rw [round_eq]
    have h2 : (⌊x * 100 + 1/2⌋ : ℚ) ≤ x * 100 + 1/2 := Int.floor_le _
    by_contra hc
    push_neg at hc
    have h3 : (10001 : ℤ) ≤ ⌊x * 100 + 1/2⌋ := hc
    have h4 : ((10001 : ℤ) : ℚ) ≤ x * 100 + 1/2 := le_trans (by exact_mod_cast h3) h2
    push_cast at h4
    linarith
  have hb2 : ((round (x * 100) : ℤ) : ℚ) ≤ 10000 := by exact_mod_cast hb
  linarith

lemma focused_count_eq_count (fs : List FocusEvent) :
    focused_count fs = (fs.map (fun f => f.status)).count "Focused" := by
  induction fs with
  | nil => rfl
  | cons a l ih =>
      by_cases ha : a.status = "Focused" <;>
        simp [focused_count, List.count_cons, ha, List.filter_cons] at ih ⊢ <;> omega

lemma count_FD_eq_length (fs : List FocusEvent)
    (h : ∀ f ∈ fs, f.status = "Focused" ∨ f.status = "Distracted") :
    (fs.map (fun f => f.status)).count "Focused"
      + (fs.map (fun f => f.status)).count "Distracted" = fs.length := by
  induction fs with
  | nil => simp
  | cons a l ih =>
      have ha := h a (List.mem_cons_self a l)
      have ih2 := ih (fun f hf => h f (List.mem_cons_of_mem _ hf))
      rcases ha with ha | ha <;> simp [List.count_cons, ha] <;> omega

lemma spec_emotion_eq (es : List EmotionEvent) :
    spec_emotion_score es = emotion_score_of es := by
  rw [spec_emotion_score, emotion_score_eq_sum]
  have ht : (if es = [] then (1:ℚ) else es.length) = total_emotions_of es := by
    rw [total_emotions_of]
    rcases Decidable.em (es = []) with h | h
    · simp [h]
    · rw [if_neg h, if_neg (by simpa using h)]
  have hw : es.map (fun e => spec_weight e.label)
      = es.map (fun e => emotionWeight e.label) :=
    List.map_congr_left (fun e _ => (emotionWeight_eq_spec _).symm)
  rw [ht, hw]
  ring

lemma spec_focus_eq (fs : List FocusEvent)
    (h : ∀ f ∈ fs, f.status = "Focused" ∨ f.status = "Distracted") :
    spec_focus_score fs = focus_score_of fs := by
  rcases Decidable.em (fs = []) with hnil | hnil
  · subst hnil
    rw [spec_focus_score, focus_score_of]
    norm_num [focus_total_of, focused_count]
  · have hcnt := count_FD_eq_length fs h
    have hlen : fs.length ≠ 0 := by simpa using hnil
    rw [spec_focus_score, focus_score_of, if_pos (focus_total_pos fs),
      focus_total_eq_length fs hnil, focused_count_eq_count]
    have hsum : ((fs.map (fun f => f.status)).count "Focused" : ℚ)
        + ((fs.map (fun f => f.status)).count "Distracted" : ℚ) = (fs.length : ℚ) := by
      exact_mod_cast hcnt
    rw [if_neg (by rw [hsum]; exact_mod_cast hlen), hsum]
    ring

lemma scenario_focus_eval : focus_score_of scenarioFocus = 80 := by
  have hfc : focused_count scenarioFocus = 8 := by decide
  have hfl : scenarioFocus.length = 10 := by decide
  rw [focus_score_of, focus_total_of, hfc, hfl]
  norm_num

lemma scenario_emotion_eval : emotion_score_of scenarioEmotions = 85 := by
  have hts : (scenarioEmotions.map (fun e => e.label)).toFinset
      = {"happy", "neutral"} := by decide
  have hch : (scenarioEmotions.map (fun e => e.label)).count "happy" = 5 := by decide
  have hcn : (scenarioEmotions.map (fun e => e.label)).count "neutral" = 5 := by decide
  have hel : scenarioEmotions.length = 10 := by decide
  rw [emotion_score_of]
  simp only [hts, total_emotions_of, hel]
  rw [Finset.sum_pair (by decide)]
  rw [hch, hcn]
  have hw1 : emotionWeight "happy" = 1 := by
    rw [emotionWeight, if_pos (by decide)]
  have hw2 : emotionWeight "neutral" = 7/10 := by
    rw [emotionWeight, if_neg (by decide), if_pos (by decide)]
  rw [hw1, hw2]
  norm_num

/-! ## The claims -/

/-- C1: `calculate_productivity_score` equals the reference definition of
the specification (per-label weights 1.0 / 0.7 / 0.4 / 0.5, emotion and
focus ratios scaled to 0-100, final score `round(0.7*focus + 0.3*emotion, 2)`)
on every session whose focus statuses are the detector's vocabulary
"Focused"/"Distracted"; and on the worked scenario (8 Focused + 2
Distracted, 5 happy + 5 neutral) the result is 81.5. -/
theorem claim_C1 :
    (∀ (es : List EmotionEvent) (fs : List FocusEvent),
        (∀ f ∈ fs, f.status = "Focused" ∨ f.status = "Distracted") →
        calculate_productivity_score es fs = spec_productivity_score es fs)
    ∧ calculate_productivity_score scenarioEmotions scenarioFocus = 163/2 := by
  constructor
  · intro es fs h
    rw [calculate_productivity_score, spec_productivity_score,
      spec_emotion_eq, spec_focus_eq fs h]
  · rw [calculate_productivity_score, scenario_focus_eval, scenario_emotion_eval,
      roundTo2]
    norm_num [round_eq]

/-- Witness for C1: the refinement equality applied to the concrete worked
scenario, whose focus statuses are all "Focused" or "Distracted". -/
theorem claim_C1_witness :
    calculate_productivity_score scenarioEmotions scenarioFocus
      = spec_productivity_score scenarioEmotions scenarioFocus :=
  claim_C1.1 scenarioEmotions scenarioFocus (by decide)

/-- C2: the final score is always in [0,100] with two-decimal precision,
and for every non-empty focus-event list the focus component is in [0,100]
and equals 100 exactly when every focus event is "Focused". -/
theorem claim_C2 :
    ∀ (es : List EmotionEvent) (fs : List FocusEvent),
      (0 ≤ calculate_productivity_score es fs
        ∧ calculate_productivity_score es fs ≤ 100
        ∧ ∃ n : ℤ, calculate_productivity_score es fs = (n : ℚ) / 100)
      ∧ (fs ≠ [] →
          (0 ≤ focus_score_of fs ∧ focus_score_of fs ≤ 100
            ∧ (focus_score_of fs = 100 ↔ ∀ f ∈ fs, f.status = "Focused"))) := by
  intro es fs
  have h1 : 0 ≤ 7/10 * focus_score_of fs + 3/10 * emotion_score_of es := by
    have := focus_score_nonneg fs
    have := emotion_score_nonneg es
    linarith
  have h2 : 7/10 * focus_score_of fs + 3/10 * emotion_score_of es ≤ 100 := by
    have := focus_score_le_100 fs
    have := emotion_score_le_100 es
    linarith
  refine ⟨⟨roundTo2_nonneg _ h1, roundTo2_le_100 _ h2,
      ⟨round ((7/10 * focus_score_of fs + 3/10 * emotion_score_of es) * 100), rfl⟩⟩, ?_⟩
  intro hne
  exact ⟨focus_score_nonneg fs, focus_score_le_100 fs, focus_score_eq_100_iff fs hne⟩

/-- Witness for C2 at the concrete worked scenario (non-empty focus list). -/
theorem claim_C2_witness :
    (0 ≤ calculate_productivity_score scenarioEmotions scenarioFocus
      ∧ calculate_productivity_score scenarioEmotions scenarioFocus ≤ 100
      ∧ ∃ n : ℤ,
          calculate_productivity_score scenarioEmotions scenarioFocus = (n : ℚ) / 100)
    ∧ (0 ≤ focus_score_of scenarioFocus ∧ focus_score_of scenarioFocus ≤ 100
        ∧ (focus_score_of scenarioFocus = 100
            ↔ ∀ f ∈ scenarioFocus, f.status = "Focused")) :=
  ⟨(claim_C2 scenarioEmotions scenarioFocus).1,
   (claim_C2 scenarioEmotions scenarioFocus).2 (by decide)⟩

/-- C3: the score is a pure function of the two event multisets: permuting
either stored event sequence leaves the result unchanged. -/
theorem claim_C3 :
    ∀ (es es2 : List EmotionEvent) (fs fs2 : List FocusEvent),
      es.Perm es2 → fs.Perm fs2 →
      calculate_productivity_score es fs = calculate_productivity_score es2 fs2 := by
  intro es es2 fs fs2 he hf
  have hes : emotion_score_of es = emotion_score_of es2 := by
    rw [emotion_score_eq_sum, emotion_score_eq_sum, total_emotions_of,
      total_emotions_of, he.length_eq,
      (he.map (fun e => emotionWeight e.label)).sum_eq]
  have hfs : focus_score_of fs = focus_score_of fs2 := by
    rw [focus_score_of, focus_score_of, focus_total_of, focus_total_of,
      hf.length_eq, focused_count, focused_count,
      (hf.filter (fun f => f.status == "Focused")).length_eq]
  rw [calculate_productivity_score, calculate_productivity_score, hes, hfs]

/-- Witness for C3: two concrete reorderings of the same event multisets. -/
theorem claim_C3_witness :
    calculate_productivity_score
        [⟨"t1", "happy", 1⟩, ⟨"t2", "sad", 1/2⟩]
        [⟨"u1", "Focused"⟩, ⟨"u2", "Distracted"⟩]
      = calculate_productivity_score
          [⟨"t2", "sad", 1/2⟩, ⟨"t1", "happy", 1⟩]
          [⟨"u2", "Distracted"⟩, ⟨"u1", "Focused"⟩] :=
  claim_C3 _ _ _ _ (List.Perm.swap _ _ _) (List.Perm.swap _ _ _)

/-- C4: with no events at all both zero-guards replace the zero totals by
1, both component scores are 0, and the final score is 0.0 with no
division by zero. -/
theorem claim_C4 :
    calculate_productivity_score [] [] = 0
    ∧ total_emotions_of [] = 1 ∧ focus_total_of [] = 1
    ∧ emotion_score_of ([] : List EmotionEvent) = 0
    ∧ focus_score_of ([] : List FocusEvent) = 0 := by
  have he : emotion_score_of ([] : List EmotionEvent) = 0 := by
    rw [emotion_score_eq_sum]
    simp
  have hf : focus_score_of ([] : List FocusEvent) = 0 := by
    rw [focus_score_of, if_pos (focus_total_pos _)]
    norm_num [focused_count, focus_total_of]
  refine ⟨?_, by rw [total_emotions_of]; simp, by rw [focus_total_of]; simp, he, hf⟩
  rw [calculate_productivity_score, he, hf, roundTo2]
  norm_num [round_eq]

lemma emotion_score_nil : emotion_score_of [] = 0 := by
  rw [emotion_score_eq_sum]
  simp

lemma calc_nil : calculate_productivity_score [] [] = 0 := by
  have hf : focus_score_of ([] : List FocusEvent) = 0 := by
    rw [focus_score_of, if_pos (focus_total_pos _)]
    norm_num [focused_count, focus_total_of]
  rw [calculate_productivity_score, emotion_score_nil, hf, roundTo2]
  norm_num [round_eq]

lemma calc_one_focused :
    calculate_productivity_score [] [⟨"t2", "Focused"⟩] = 70 := by
  have hfs : focus_score_of [⟨"t2", "Focused"⟩] = 100 := by
    rw [focus_score_of, if_pos (focus_total_pos _)]
    norm_num [focused_count, focus_total_of]
  rw [calculate_productivity_score, emotion_score_nil, hfs, roundTo2]
  norm_num [round_eq]

/-- Store with one still-open session (id 1) of student 7. -/
def dbC5 : DB := ⟨[⟨1, 7, "s1", none, 0⟩], [], [], 2⟩

lemma dbC5_first_close :
    end_session dbC5 1 "t1" = ⟨[⟨1, 7, "s1", some "t1", 0⟩], [], [], 2⟩ := by
  simp [end_session, dbC5, db_productivity_score, session_emotions, session_focus,
    calc_nil]

lemma dbC5_second_close :
    end_session (log_focus (end_session dbC5 1 "t1") 1 "t2" "Focused") 1 "t3"
      = ⟨[⟨1, 7, "s1", some "t3", 70⟩], [], [(1, ⟨"t2", "Focused"⟩)], 2⟩ := by
  rw [dbC5_first_close]
  simp [log_focus, end_session, db_productivity_score, session_emotions,
    session_focus, calc_one_focused]

/-- C5, counterexample: `end_session` has no state guard.  On a store whose
session 1 was closed with score 0, appending one Focused event and calling
`end_session` again succeeds silently, recomputes the score to 70 and
overwrites the end timestamp — no InvalidState is signalled, the finalized
score is not immutable. -/
theorem claim_C5_counterexample :
    (find_session (end_session dbC5 1 "t1") 1).map (fun r => r.productivity_score)
        = some 0
    ∧ (find_session
          (end_session (log_focus (end_session dbC5 1 "t1") 1 "t2" "Focused") 1 "t3")
          1).map (fun r => r.productivity_score) = some 70
    ∧ (find_session
          (end_session (log_focus (end_session dbC5 1 "t1") 1 "t2" "Focused") 1 "t3")
          1).map (fun r => r.end_time) = some (some "t3") := by
  rw [dbC5_second_close, dbC5_first_close]
  refine ⟨?_, ?_, ?_⟩ <;> simp [find_session]

/-- C5, amended: every `end_session` call — including a second call on an
already-closed session — succeeds, stamps the given end timestamp and
overwrites the stored score with the score recomputed from the session's
current event lists.  No error path exists. -/
theorem claim_C5_amended :
    ∀ (db : DB) (sid : ℕ) (now : String) (r : SessionRow),
      r ∈ db.sessions → r.id = sid →
      (⟨r.id, r.student_id, r.start_time, some now, db_productivity_score db sid⟩
          : SessionRow)
        ∈ (end_session db sid now).sessions := by
  intro db sid now r hr hid
  simp only [end_session]
  have hfr : (⟨r.id, r.student_id, r.start_time, some now,
        db_productivity_score db sid⟩ : SessionRow)
      = (fun q =>
          if q.id = sid then { q with end_time := some now, productivity_score := db_productivity_score db sid } else q)
        r := by
    simp [hid]
  rw [hfr]
  exact List.mem_map_of_mem _ hr

/-- Witness for the amended C5, at the concrete one-session store. -/
theorem claim_C5_amended_witness :
    (⟨1, 7, "s1", some "tW", db_productivity_score dbC5 1⟩ : SessionRow)
      ∈ (end_session dbC5 1 "tW").sessions :=
  claim_C5_amended dbC5 1 "tW" ⟨1, 7, "s1", none, 0⟩ (by simp [dbC5]) rfl

/-- Store with one still-open (Running) session of student 7. -/
def dbC6 : DB := ⟨[⟨1, 7, "s1", none, 0⟩], [], [], 2⟩

/-- C6, counterexample: `log_session` does not check for an existing
Running session.  Starting a session for student 7 while session 1 is
still Running succeeds and leaves the student with two Running sessions —
no InvalidState is signalled. -/
theorem claim_C6_counterexample :
    running_count dbC6 7 = 1
    ∧ running_count (log_session dbC6 7 "s2").2 7 = 2 := by
  constructor <;> decide

/-- C6, amended: `log_session` unconditionally inserts a new Running
session (one more session row, one more Running session for the subject,
whatever the store held before); the only guard against a double start is
in the page: the Start button is rendered disabled while the client's own
`running` flag is set, so a click then leaves client state and store
unchanged rather than signalling anything. -/
theorem claim_C6_amended :
    ∀ (db : DB) (student : ℕ) (now : String) (cs : ClientState),
      running_count (log_session db student now).2 student
          = running_count db student + 1
      ∧ (log_session db student now).2.sessions.length = db.sessions.length + 1
      ∧ (cs.running = true → start_button_click cs db student now = (cs, db)) := by
  intro db student now cs
  refine ⟨?_, ?_, ?_⟩
  · rw [running_count, log_session]
    simp [List.filter_append, running_count]
  · simp [log_session]
  · intro h
    rw [start_button_click, if_pos h]

/-- Witness for the amended C6, at the concrete one-session store and a
client whose running flag is set. -/
theorem claim_C6_amended_witness :
    running_count (log_session dbC6 7 "s2").2 7 = running_count dbC6 7 + 1
    ∧ (log_session dbC6 7 "s2").2.sessions.length = dbC6.sessions.length + 1
    ∧ start_button_click ⟨true, some 1⟩ dbC6 7 "s2" = (⟨true, some 1⟩, dbC6) :=
  ⟨(claim_C6_amended dbC6 7 "s2" ⟨true, some 1⟩).1,
   (claim_C6_amended dbC6 7 "s2" ⟨true, some 1⟩).2.1,
   (claim_C6_amended dbC6 7 "s2" ⟨true, some 1⟩).2.2 rfl⟩

/-- Two detected faces: a large one (100x100) with both eyes found, then a
small one (30x30) with no eyes found. -/
def facesC7 : List FaceRegion := [⟨0, 0, 100, 100, 2⟩, ⟨120, 0, 30, 30, 0⟩]

/-- C7, counterexample: with two detected faces, the largest face has two
eye regions, so the claimed rule says Focused — but the loop writes the
status of every face in detector order and the final value comes from the
LAST face (no eyes), so the code reports Distracted. -/
theorem claim_C7_counterexample :
    largest_face facesC7 = some ⟨0, 0, 100, 100, 2⟩
    ∧ 2 ≤ (⟨0, 0, 100, 100, 2⟩ : FaceRegion).eyes
    ∧ spec_focus_status facesC7 = "Focused"
    ∧ focus_block facesC7 = "Distracted" := by decide

/-- C7, amended: the status is Focused iff the detector returned at least
one face and at least two eye regions were detected within the LAST face
of the detector's list (the loop body overwrites the status per face);
with zero faces the status is Distracted. -/
theorem claim_C7_amended :
    ∀ faces : List FaceRegion,
      focus_block faces
        = match faces.getLast? with
          | none => "Distracted"
          | some f => if 2 ≤ f.eyes then "Focused" else "Distracted" := by
  intro faces
  induction faces using List.reverseRecOn with
  | nil => rfl
  | append_singleton l a ih =>
      simp [focus_block, List.foldl_append, List.getLast?_concat]

/-- C8: with a backend present, `detect_emotion` is invoked on an
iteration exactly when the frame counter is a multiple of 60 or more than
2 seconds have passed since the last successful classification; and
`last_emotion_time` is advanced to the current time exactly when the
classifier was invoked and succeeded, otherwise it is retained. -/
theorem claim_C8 :
    ∀ (db : DB) (sid : ℕ) (bp : Bool) (fc : ℕ) (t : ℚ) (ts : String)
      (out : DetectOutcome) (s : SamplerState),
      bp = true →
      (((emotion_tick db sid bp fc t ts out s).2.2 = true)
        ↔ (fc % 60 = 0 ∨ t - s.last_emotion_time > 2))
      ∧ ((emotion_tick db sid bp fc t ts out s).1.last_emotion_time
          = if (fc % 60 = 0 ∨ t - s.last_emotion_time > 2)
                ∧ out.isSuccess = true
            then t else s.last_emotion_time) := by
  intro db sid bp fc t ts out s hbp
  subst hbp
  have htr : emotion_trigger fc t s.last_emotion_time
      ↔ (fc % 60 = 0 ∨ t - s.last_emotion_time > 2) := by
    rw [emotion_trigger, emotion_check_interval]
  rcases Decidable.em (emotion_trigger fc t s.last_emotion_time) with h | h
  · rw [emotion_tick.eq_def, if_pos h, if_pos rfl]
    cases out with
    | failure msg =>
        refine ⟨by simp [htr.mp h], ?_⟩
        rw [if_neg (by simp [DetectOutcome.isSuccess])]
    | success label conf =>
        refine ⟨by simp [htr.mp h], ?_⟩
        rw [if_pos ⟨htr.mp h, rfl⟩]
  · have hn : ¬(fc % 60 = 0 ∨ t - s.last_emotion_time > 2) :=
      fun hc => h (htr.mpr hc)
    rw [emotion_tick.eq_def, if_neg h]
    simp [hn]

def dbC8 : DB := ⟨[], [], [], 1⟩

def sC8 : SamplerState := ⟨0, "w", none, none, 0⟩

/-- Witness for C8 at a concrete iteration (frame 60, failing detection). -/
theorem claim_C8_witness :
    ((emotion_tick dbC8 1 true 60 0 "ts" (DetectOutcome.failure "err") sC8).2.2 = true
      ↔ (60 % 60 = 0 ∨ (0:ℚ) - sC8.last_emotion_time > 2))
    ∧ ((emotion_tick dbC8 1 true 60 0 "ts"
          (DetectOutcome.failure "err") sC8).1.last_emotion_time
        = if (60 % 60 = 0 ∨ (0:ℚ) - sC8.last_emotion_time > 2)
              ∧ (DetectOutcome.failure "err").isSuccess = true
          then (0:ℚ) else sC8.last_emotion_time) :=
  claim_C8 dbC8 1 true 60 0 "ts" (DetectOutcome.failure "err") sC8 rfl

/-- C9: on a failing classification cycle no emotion event is appended
(the store is unchanged), the last-known emotion and its displayed
confidence are retained, the successful-classification clock and the
logged counter are unchanged — the step is total, so the loop proceeds to
the next iteration in every case. -/
theorem claim_C9 :
    ∀ (db : DB) (sid : ℕ) (bp : Bool) (fc : ℕ) (t : ℚ) (ts : String)
      (msg : String) (s : SamplerState),
      (emotion_tick db sid bp fc t ts (.failure msg) s).2.1 = db
      ∧ (emotion_tick db sid bp fc t ts (.failure msg) s).1.last_emotion
          = s.last_emotion
      ∧ (emotion_tick db sid bp fc t ts (.failure msg) s).1.emotion_score_disp
          = s.emotion_score_disp
      ∧ (emotion_tick db sid bp fc t ts (.failure msg) s).1.last_emotion_time
          = s.last_emotion_time
      ∧ (emotion_tick db sid bp fc t ts (.failure msg) s).1.emotion_logged_count
          = s.emotion_logged_count := by
  intro db sid bp fc t ts msg s
  rw [emotion_tick.eq_def]
  split_ifs <;> simp

lemma vocab_counts (fs : List FocusEvent)
    (h : ∀ f ∈ fs, f.status = "Focused" ∨ f.status = "Unfocused"
        ∨ f.status = "Distracted") :
    (fs.filter (fun f => f.status == "Focused")).length
      + ((fs.filter (fun f => f.status == "Unfocused")).length
        + (fs.filter (fun f => f.status == "Distracted")).length) = fs.length := by
  induction fs with
  | nil => simp
  | cons a l ih =>
      have ha := h a (List.mem_cons_self a l)
      have ih2 := ih (fun f hf => h f (List.mem_cons_of_mem _ hf))
      rcases ha with ha | ha | ha <;> simp [List.filter_cons, ha] <;> omega

/-- C10: the scorer applies no synonym normalization: any focus status
other than the exact string "Focused" (e.g. the historical "Unfocused")
is counted in `focus_total` but not in `focused`, so it lowers the focus
component exactly as "Distracted" does; the dashboard, by contrast, merges
"Unfocused" and "Distracted" at read time, and on the merged vocabulary
its percentage agrees with the scorer's focus component. -/
theorem claim_C10 :
    ∀ (ts s : String) (fs : List FocusEvent),
      s ≠ "Focused" →
      (focused_count (⟨ts, s⟩ :: fs) = focused_count fs
        ∧ focus_total_of (⟨ts, s⟩ :: fs) = (fs.length : ℚ) + 1
        ∧ focus_score_of (⟨ts, s⟩ :: fs) = focus_score_of (⟨ts, "Distracted"⟩ :: fs))
      ∧ ((∀ f ∈ fs, f.status = "Focused" ∨ f.status = "Unfocused"
              ∨ f.status = "Distracted") →
          fs ≠ [] → dashboard_focus_pct fs = focus_score_of fs) := by
  intro ts s fs hs
  have hc1 : focused_count (⟨ts, s⟩ :: fs) = focused_count fs := by
    simp [focused_count, List.filter_cons, hs]
  have hc2 : focused_count (⟨ts, "Distracted"⟩ :: fs) = focused_count fs := by
    simp [focused_count, List.filter_cons]
  have ht1 : focus_total_of (⟨ts, s⟩ :: fs) = (fs.length : ℚ) + 1 := by
    rw [focus_total_of]
    simp
  have ht2 : focus_total_of (⟨ts, "Distracted"⟩ :: fs) = (fs.length : ℚ) + 1 := by
    rw [focus_total_of]
    simp
  refine ⟨⟨hc1, ht1, ?_⟩, ?_⟩
  · rw [focus_score_of, focus_score_of, if_pos (focus_total_pos _),
      if_pos (focus_total_pos _), hc1, hc2, ht1, ht2]
  · intro hv hne
    have hsum := vocab_counts fs hv
    have hpos : 0 < fs.length := List.length_pos.mpr hne
    rw [dashboard_focus_pct]
    simp only [dashboard_focus_counts]
    rw [if_pos (by omega), hsum,
      focus_score_of, if_pos (focus_total_pos _), focused_count,
      focus_total_eq_length fs hne]

/-- Witness for C10: prepending an "Unfocused" event to a one-event list
behaves exactly like prepending "Distracted", and the dashboard percentage
agrees with the scorer on that list. -/
theorem claim_C10_witness :
    (focused_count (⟨"t", "Unfocused"⟩ :: [⟨"u", "Focused"⟩])
        = focused_count [⟨"u", "Focused"⟩]
      ∧ focus_total_of (⟨"t", "Unfocused"⟩ :: [⟨"u", "Focused"⟩])
          = (([⟨"u", "Focused"⟩] : List FocusEvent).length : ℚ) + 1
      ∧ focus_score_of (⟨"t", "Unfocused"⟩ :: [⟨"u", "Focused"⟩])
          = focus_score_of (⟨"t", "Distracted"⟩ :: [⟨"u", "Focused"⟩]))
    ∧ dashboard_focus_pct [⟨"u", "Focused"⟩] = focus_score_of [⟨"u", "Focused"⟩] :=
  ⟨(claim_C10 "t" "Unfocused" [⟨"u", "Focused"⟩] (by decide)).1,
   (claim_C10 "t" "Unfocused" [⟨"u", "Focused"⟩] (by decide)).2
     (by decide) (by decide)⟩
